import Mathlib

/-!
A verification development for the similarity-scoring and threshold-selection
engine of the `zotero-similarity-selection` repository (`src/selection.py`,
class `PaperSelector`).

Real-number scalars model the floating-point values of the Python code;
the numpy / scikit-learn library operations the code calls are translated
from their documented semantics:

* `np.mean`, `np.std` (population, `ddof = 0`), `np.median` (mean of the two
  middle elements for even length), `np.percentile` (default linear
  interpolation at virtual index `q / 100 * (n - 1)`), `np.min`, `np.max`;
* `sklearn.metrics.pairwise.cosine_similarity`, which first checks that the
  two matrices have the same column count (raising a `ValueError` on
  mismatch), then L2-normalizes every row — a row of norm 0 is left
  unchanged, because `normalize` substitutes 1 for a zero norm — and returns
  the matrix of pairwise dot products.

Errors are modelled by an explicit error type, one constructor per distinct
`raise ValueError(...)` site / library failure, named after the spec's error
taxonomy; a failing call returns `.error e` and yields no successor state,
mirroring the Python methods, which raise before performing any assignment.
-/

/-- Error outcomes of the `PaperSelector` operations.  Each constructor
corresponds to one distinct failure of the Python code. -/
inductive SelErr where
  /-- Raised as `ValueError("Must compute similarities first")`. -/
  | precursorMissing : SelErr
  /-- Raised as `ValueError` when `method='custom'` and no `custom_threshold` is given. -/
  | missingArgument : SelErr
  /-- Raised as `ValueError` on an unrecognized `method` string. -/
  | unknownPolicy (method : String) : SelErr
  /-- Raised inside sklearn's `check_pairwise_arrays` (a `ValueError`) when the
  document matrix and the reference matrix have different column counts. -/
  | dimMismatch (dX dY : ℕ) : SelErr
  deriving DecidableEq

/-- A numpy `ndarray` argument that may be 1-D or 2-D, as accepted by
`compute_similarities` for the reference embedding. -/
inductive NDArr where
  | vec (v : List ℝ) : NDArr
  | mat (rows : List (List ℝ)) : NDArr

/-- The mutable state of a Python `PaperSelector` instance:
`self.similarities` and `self.threshold`, both starting as `None`. -/
structure PaperSelector where
  similarities : Option (List ℝ)
  threshold : Option ℝ


/-- Python `PaperSelector.__init__`: both fields start as `None`. -/
def PaperSelector.init : PaperSelector := ⟨none, none⟩

/-- Python `np.mean`: arithmetic mean. -/
noncomputable def npMean (l : List ℝ) : ℝ := l.sum / l.length

/-- Python `np.std` with default `ddof = 0`: population standard deviation,
`sqrt(mean((x - mean)²))`. -/
noncomputable def npStd (l : List ℝ) : ℝ :=
  Real.sqrt (((l.map fun x => (x - npMean l) ^ 2).sum) / l.length)

/-- The ascending sort numpy performs on the data before taking a median or
percentile. -/
noncomputable def npSort (l : List ℝ) : List ℝ := List.insertionSort (· ≤ ·) l

/-- Python `np.median`: middle element of the sorted data for odd length, mean of
the two middle elements for even length. -/
noncomputable def npMedian (l : List ℝ) : ℝ :=
  let s := npSort l
  let n := l.length
  if n % 2 = 1 then s.getD (n / 2) 0
  else (s.getD (n / 2 - 1) 0 + s.getD (n / 2) 0) / 2

/-- Linear interpolation of a sorted list at a (rational) virtual index
`pos`: with `i = ⌊pos⌋` and `γ = pos - ⌊pos⌋`, the value
`s[i] + γ * (s[i+1] - s[i])`; the `i+1` lookup falls back to `s[i]` so that
the top end (`γ = 0`) is just `s[i]`. -/
noncomputable def interpAt (s : List ℝ) (pos : ℚ) : ℝ :=
  let i : ℕ := (⌊pos⌋).toNat
  let γ : ℚ := pos - ⌊pos⌋
  let a := s.getD i 0
  let b := s.getD (i + 1) a
  a + (γ : ℝ) * (b - a)

/-- Python `np.percentile` with the default linear-interpolation method: the sorted
data evaluated at virtual index `q / 100 * (n - 1)`. -/
noncomputable def npPercentile (l : List ℝ) (q : ℚ) : ℝ :=
  interpAt (npSort l) (q * ((l.length : ℚ) - 1) / 100)

/-- Python `np.min` of a 1-D array (0 on the empty array, where numpy would error).
-/
noncomputable def npMin (l : List ℝ) : ℝ :=
  match l with
  | [] => 0
  | x :: xs => xs.foldl min x

/-- Python `np.max` of a 1-D array (0 on the empty array, where numpy would error).
-/
noncomputable def npMax (l : List ℝ) : ℝ :=
  match l with
  | [] => 0
  | x :: xs => xs.foldl max x

/-- Squared L2 norm of a row vector. -/
noncomputable def sumSq (v : List ℝ) : ℝ := (v.map fun x => x ^ 2).sum

/-- Row-wise L2 normalization as performed by sklearn's `normalize`:
each row is divided by its L2 norm, except that a zero norm is replaced by 1
(so an all-zero row is returned unchanged, not rejected). -/
noncomputable def sklearnNormalize (v : List ℝ) : List ℝ :=
  let n := Real.sqrt (sumSq v)
  let n' := if n = 0 then 1 else n
  v.map fun x => x / n'

/-- Dot product of two rows. -/
noncomputable def dotList (u v : List ℝ) : ℝ := (List.zipWith (· * ·) u v).sum

/-- Python `sklearn.metrics.pairwise.cosine_similarity X Y`: after the column-count
check of `check_pairwise_arrays` (the column count of a numpy 2-D array is
the length of its first row), both matrices are row-normalized and the
`n × k` matrix of dot products `K[i][j] = ⟨X̂ᵢ, Ŷⱼ⟩` is returned. -/
noncomputable def cosine_similarity (X Y : List (List ℝ)) :
    Except SelErr (List (List ℝ)) :=
  let dX := (X.headD []).length
  let dY := (Y.headD []).length
  if dX ≠ dY then .error (.dimMismatch dX dY)
  else
    .ok (X.map fun xr =>
      Y.map fun yr => dotList (sklearnNormalize xr) (sklearnNormalize yr))

/-- Python `PaperSelector.compute_similarities`: a 1-D reference is reshaped to a
single-row matrix; `cosine_similarity` is computed against the (possibly
multi-row) reference matrix; the result is flattened to 1-D and stored in
`self.similarities`.  On failure the exception propagates before
`self.similarities` is assigned, so no successor state is produced. -/
noncomputable def PaperSelector.compute_similarities (st : PaperSelector)
    (paper_embeddings : List (List ℝ)) (reference_embedding : NDArr) :
    Except SelErr (List ℝ × PaperSelector) :=
  let refM := match reference_embedding with
    | .vec v => [v]
    | .mat rows => rows
  match cosine_similarity paper_embeddings refM with
  | .error e => .error e
  | .ok sims =>
    let flat := sims.flatten
    .ok (flat, { st with similarities := some flat })

/-- Python `PaperSelector.compute_threshold`: dispatch on the `method` string;
each recognized policy stores its value in `self.threshold` and returns it;
`"custom"` without a `custom_threshold` and unrecognized method names raise
before any assignment. -/
noncomputable def PaperSelector.compute_threshold (st : PaperSelector)
    (method : String) (custom_threshold : Option ℝ) :
    Except SelErr (ℝ × PaperSelector) :=
  match st.similarities with
  | none => .error .precursorMissing
  | some sims =>
    if method = "custom" then
      match custom_threshold with
      | none => .error .missingArgument
      | some c => .ok (c, { st with threshold := some c })
    else if method = "mean_2std" then
      let t := npMean sims + 2 * npStd sims
      .ok (t, { st with threshold := some t })
    else if method = "mean_1std" then
      let t := npMean sims + 1 * npStd sims
      .ok (t, { st with threshold := some t })
    else if method = "median" then
      let t := npMedian sims
      .ok (t, { st with threshold := some t })
    else if method = "percentile_75" then
      let t := npPercentile sims 75
      .ok (t, { st with threshold := some t })
    else if method = "percentile_90" then
      let t := npPercentile sims 90
      .ok (t, { st with threshold := some t })
    else .error (.unknownPolicy method)

/-- The elementwise comparison `similarities >= threshold` producing a
boolean mask. -/
noncomputable def selMask (sims : List ℝ) (t : ℝ) : List Bool :=
  sims.map fun s => decide (t ≤ s)

/-- Python `PaperSelector.select_papers`: an explicit `threshold` argument is
stored in `self.threshold`; with no argument and no stored threshold, the
method first runs `compute_threshold(method="mean_2std")`; the returned mask
is `self.similarities >= self.threshold`, elementwise and in order. -/
noncomputable def PaperSelector.select_papers (st : PaperSelector)
    (threshold : Option ℝ) :
    Except SelErr (List Bool × PaperSelector) :=
  match st.similarities with
  | none => .error .precursorMissing
  | some sims =>
    match threshold with
    | some t => .ok (selMask sims t, { st with threshold := some t })
    | none =>
      match st.threshold with
      | some t => .ok (selMask sims t, st)
      | none =>
        match st.compute_threshold "mean_2std" none with
        | .error e => .error e
        | .ok (t, st') => .ok (selMask sims t, st')

/-- The dictionary returned by `PaperSelector.get_statistics`; the three
threshold-dependent keys are absent (`none`) when `self.threshold` is
`None`. -/
structure Stats where
  count : ℕ
  mean : ℝ
  std : ℝ
  median : ℝ
  min : ℝ
  max : ℝ
  q25 : ℝ
  q75 : ℝ
  q90 : ℝ
  q95 : ℝ
  threshold : Option ℝ
  selected_count : Option ℕ
  selected_percentage : Option ℝ

/-- Python `PaperSelector.get_statistics`: a pure read (the state is not modified)
of the score distribution; the threshold block is added only when
`self.threshold` is set, with `selected_count = np.sum(similarities >=
threshold)` and `selected_percentage = 100 * selected_count / count`. -/
noncomputable def PaperSelector.get_statistics (st : PaperSelector) :
    Except SelErr Stats :=
  match st.similarities with
  | none => .error .precursorMissing
  | some sims =>
    let base : Stats :=
      { count := sims.length
        mean := npMean sims
        std := npStd sims
        median := npMedian sims
        min := npMin sims
        max := npMax sims
        q25 := npPercentile sims 25
        q75 := npPercentile sims 75
        q90 := npPercentile sims 90
        q95 := npPercentile sims 95
        threshold := none
        selected_count := none
        selected_percentage := none }
    match st.threshold with
    | none => .ok base
    | some t =>
      let sc := (selMask sims t).count true
      .ok { base with
            threshold := some t
            selected_count := some sc
            selected_percentage := some (100 * sc / sims.length) }

/-! ### Helper lemmas -/

/-- The selection mask has one entry per score. -/
theorem selMask_length (sims : List ℝ) (t : ℝ) :
    (selMask sims t).length = sims.length := by
  simp [selMask]

/-- Entry `i` of the selection mask is `true` exactly when score `i` is at
least the threshold. -/
theorem selMask_getElem? (sims : List ℝ) (t : ℝ) (i : ℕ) (s : ℝ)
    (hs : sims[i]? = some s) :
    ((selMask sims t)[i]? = some true ↔ t ≤ s) := by
  simp [selMask, List.getElem?_map, hs]

/-- The number of `true` entries of the selection mask is the number of
scores at least the threshold. -/
theorem selMask_count (sims : List ℝ) (t : ℝ) :
    (selMask sims t).count true = sims.countP (fun s => decide (t ≤ s)) := by
  induction sims with
  | nil => simp [selMask]
  | cons x xs ih =>
    by_cases hx : t ≤ x <;>
      simp [selMask, List.count_cons, List.countP_cons, hx] at ih ⊢ <;>
      simpa [selMask] using ih

/-! ### Claim theorems -/

/-- C6: in the Empty state (no score vector computed), `compute_threshold`,
`select_papers` and `get_statistics` all fail with the precursor-missing
error (`ValueError("Must compute similarities first")`), for every method
string, custom value and threshold argument.  A failing call produces no
successor state (the Python methods raise before any assignment), so the
selector's state is unchanged. -/
theorem empty_state_operations_fail (st : PaperSelector)
    (h : st.similarities = none) :
    (∀ m c, st.compute_threshold m c = .error .precursorMissing) ∧
    (∀ t, st.select_papers t = .error .precursorMissing) ∧
    st.get_statistics = .error .precursorMissing := by
  refine ⟨fun m c => ?_, fun t => ?_, ?_⟩ <;>
    simp [PaperSelector.compute_threshold, PaperSelector.select_papers,
      PaperSelector.get_statistics, h]

/-- Witness for C6 at the freshly initialized selector. -/
theorem empty_state_operations_fail_witness :
    PaperSelector.init.similarities = none ∧
    ((∀ m c, PaperSelector.init.compute_threshold m c =
        .error .precursorMissing) ∧
     (∀ t, PaperSelector.init.select_papers t = .error .precursorMissing) ∧
     PaperSelector.init.get_statistics = .error .precursorMissing) :=
  ⟨rfl, empty_state_operations_fail PaperSelector.init rfl⟩

/-- C7: with scores set, policy `"custom"` with no custom value fails with
the missing-argument error, and any method string other than the six
recognized policies fails with the unknown-policy error; in both cases the
call returns an error (no default is substituted) and produces no successor
state, so the stored threshold is unchanged. -/
theorem invalid_policy_fails (st : PaperSelector) (sims : List ℝ)
    (h : st.similarities = some sims) :
    st.compute_threshold "custom" none = .error .missingArgument ∧
    (∀ m c, m ≠ "custom" → m ≠ "mean_2std" → m ≠ "mean_1std" →
      m ≠ "median" → m ≠ "percentile_75" → m ≠ "percentile_90" →
      st.compute_threshold m c = .error (.unknownPolicy m)) := by
  constructor
  · simp [PaperSelector.compute_threshold, h]
  · intro m c h1 h2 h3 h4 h5 h6
    simp [PaperSelector.compute_threshold, h, h1, h2, h3, h4, h5, h6]

/-- Witness for C7: a selector holding one score, probed with the
unrecognized method string `"foo"`. -/
theorem invalid_policy_fails_witness :
    (PaperSelector.mk (some [1]) none).similarities = some [1] ∧
    ((PaperSelector.mk (some [1]) none).compute_threshold "custom" none =
       .error .missingArgument ∧
     (∀ m c, m ≠ "custom" → m ≠ "mean_2std" → m ≠ "mean_1std" →
       m ≠ "median" → m ≠ "percentile_75" → m ≠ "percentile_90" →
       (PaperSelector.mk (some [1]) none).compute_threshold m c =
         .error (.unknownPolicy m))) :=
  ⟨rfl, invalid_policy_fails (PaperSelector.mk (some [1]) none) [1] rfl⟩

/-- C5: a reference vector whose length differs from the documents' column
count is rejected with the dimension-mismatch error raised by sklearn's
`check_pairwise_arrays` before any similarity is computed; the inputs are
never truncated or padded. -/
theorem dim_mismatch_fails (st : PaperSelector) (X : List (List ℝ))
    (v : List ℝ) (d : ℕ) (hd : ∀ r ∈ X, r.length = d) (hne : X ≠ [])
    (hmm : v.length ≠ d) :
    st.compute_similarities X (.vec v) =
      .error (.dimMismatch d v.length) := by
  obtain ⟨r, rs, rfl⟩ := List.exists_cons_of_ne_nil hne
  have hr : r.length = d := hd r (by simp)
  have hcond : ¬(d = v.length) := fun hc => hmm hc.symm
  simp [PaperSelector.compute_similarities, cosine_similarity, hr, hcond]

/-- Witness for C5: documents of dimension 12 scored against a reference of
dimension 10. -/
theorem dim_mismatch_fails_witness :
    (∀ r ∈ [List.replicate 12 (0 : ℝ)], r.length = 12) ∧
    ([List.replicate 12 (0 : ℝ)] ≠ []) ∧
    (List.replicate 10 (0 : ℝ)).length ≠ 12 ∧
    PaperSelector.init.compute_similarities [List.replicate 12 (0 : ℝ)]
        (.vec (List.replicate 10 (0 : ℝ))) =
      .error (.dimMismatch 12 (List.replicate 10 (0 : ℝ)).length) :=
  ⟨by simp, by simp, by simp,
    dim_mismatch_fails PaperSelector.init _ _ 12 (by simp) (by simp)
      (by simp)⟩

/-- C3: with scores set, selection returns one boolean per score, in order,
entry `i` being `true` iff score `i` is at least the threshold in effect;
an explicit threshold argument overrides and is stored as the new current
threshold; with no argument and no stored threshold the method first runs
`compute_threshold` under the default `"mean_2std"` policy and selects
against (and stores) that value. -/
theorem select_papers_spec (st : PaperSelector) (sims : List ℝ)
    (h : st.similarities = some sims) :
    (∀ t, st.select_papers (some t) =
        .ok (selMask sims t, { st with threshold := some t })) ∧
    (∀ (t : ℝ), (selMask sims t).length = sims.length ∧
      ∀ (i : ℕ) (s : ℝ), sims[i]? = some s →
        ((selMask sims t)[i]? = some true ↔ t ≤ s)) ∧
    (st.threshold = none →
      st.select_papers none =
        .ok (selMask sims (npMean sims + 2 * npStd sims),
          { st with threshold := some (npMean sims + 2 * npStd sims) })) := by
  refine ⟨fun t => ?_, fun t => ⟨selMask_length sims t,
    fun i s hs => selMask_getElem? sims t i s hs⟩, fun hth => ?_⟩
  · simp [PaperSelector.select_papers, h]
  · simp [PaperSelector.select_papers, PaperSelector.compute_threshold, h,
      hth]

/-- Witness for C3 on the score vector `[0.1, 0.5, 0.9, 0.3, 0.7]`. -/
theorem select_papers_spec_witness :
    (PaperSelector.mk (some [0.1, 0.5, 0.9, 0.3, 0.7])
        none).similarities = some [0.1, 0.5, 0.9, 0.3, 0.7] ∧
    (∀ t, (PaperSelector.mk (some [0.1, 0.5, 0.9, 0.3, 0.7])
        none).select_papers (some t) =
        .ok (selMask [0.1, 0.5, 0.9, 0.3, 0.7] t,
          PaperSelector.mk (some [0.1, 0.5, 0.9, 0.3, 0.7]) (some t))) :=
  ⟨rfl, (select_papers_spec _ [0.1, 0.5, 0.9, 0.3, 0.7] rfl).1⟩

/-- C9: `compute_similarities` overwrites only the stored score vector and
leaves the stored threshold unchanged; consequently, on a selector reused
for a second batch, a threshold from the first batch persists and a
no-argument `select_papers` call applies it to the new scores unchanged
(and `get_statistics` keeps reporting it). -/
theorem compute_similarities_frame :
    (∀ (st : PaperSelector) X ref r st',
      st.compute_similarities X ref = .ok (r, st') →
        st'.threshold = st.threshold ∧ st'.similarities = some r) ∧
    (∀ (st : PaperSelector) sims t, st.similarities = some sims →
      st.threshold = some t →
        st.select_papers none = .ok (selMask sims t, st) ∧
        ∃ s, st.get_statistics = .ok s ∧ s.threshold = some t) := by
  constructor
  · intro st X ref r st' hok
    rcases ref with v | rows
    · simp only [PaperSelector.compute_similarities] at hok
      rcases hcs : cosine_similarity X [v] with e | sims <;> rw [hcs] at hok
      · simp at hok
      · simp only [Except.ok.injEq, Prod.mk.injEq] at hok
        obtain ⟨hr, hst⟩ := hok
        subst hst
        exact ⟨rfl, by rw [hr]⟩
    · simp only [PaperSelector.compute_similarities] at hok
      rcases hcs : cosine_similarity X rows with e | sims <;> rw [hcs] at hok
      · simp at hok
      · simp only [Except.ok.injEq, Prod.mk.injEq] at hok
        obtain ⟨hr, hst⟩ := hok
        subst hst
        exact ⟨rfl, by rw [hr]⟩
  · intro st sims t hs hth
    refine ⟨by simp [PaperSelector.select_papers, hs, hth], ?_⟩
    refine ⟨{ count := sims.length, mean := npMean sims, std := npStd sims,
              median := npMedian sims, min := npMin sims, max := npMax sims,
              q25 := npPercentile sims 25, q75 := npPercentile sims 75,
              q90 := npPercentile sims 90, q95 := npPercentile sims 95,
              threshold := some t,
              selected_count := some ((selMask sims t).count true),
              selected_percentage :=
                some (100 * ((selMask sims t).count true) / sims.length) },
      ?_, rfl⟩
    simp [PaperSelector.get_statistics, hs, hth]

/-- Flattening a matrix whose rows are singletons is the list of their
single entries (the 1-D reference case of `compute_similarities`). -/
theorem flatten_map_singleton {α β : Type _} (g : α → β) (X : List α) :
    (X.map fun x => [g x]).flatten = X.map g := by
  induction X with
  | nil => simp
  | cons x xs ih => simp [ih]

/-- C10: `compute_similarities` only reshapes a 1-D reference; a 2-D
reference with `k` rows is accepted (provided the column counts line up)
rather than rejected, and the flattened score vector has length `n × k`,
not `n`, breaking the one-score-per-document correspondence for `k > 1`;
a 1-D reference yields exactly one score per document. -/
theorem twoD_reference_flattens (st : PaperSelector) (X : List (List ℝ))
    (_hX : ∀ r ∈ X, r.length = (X.headD []).length) :
    (∀ R : List (List ℝ), (∀ r ∈ R, r.length = (R.headD []).length) →
      (X.headD []).length = (R.headD []).length →
      ∃ scores st', st.compute_similarities X (.mat R) =
          .ok (scores, st') ∧
        scores.length = X.length * R.length ∧
        st' = { st with similarities := some scores }) ∧
    (∀ v : List ℝ, (X.headD []).length = v.length →
      ∃ scores st', st.compute_similarities X (.vec v) =
          .ok (scores, st') ∧
        scores.length = X.length ∧
        st' = { st with similarities := some scores }) := by
  constructor
  · intro R _hR hdim
    have hdim' : (X.head?.getD []).length = (R.head?.getD []).length := by
      simpa using hdim
    refine ⟨(X.map fun xr => R.map fun yr =>
        dotList (sklearnNormalize xr) (sklearnNormalize yr)).flatten,
      { st with similarities := some ((X.map fun xr => R.map fun yr =>
          dotList (sklearnNormalize xr) (sklearnNormalize yr)).flatten) },
      ?_, ?_, rfl⟩
    · simp [PaperSelector.compute_similarities, cosine_similarity, hdim']
    · simp [List.length_flatten, Function.comp_def, List.map_const',
        List.sum_replicate, mul_comm]
  · intro v hdim
    have hdim' : (X.head?.getD []).length = v.length := by
      simpa using hdim
    refine ⟨(X.map fun xr =>
        [dotList (sklearnNormalize xr) (sklearnNormalize v)]).flatten,
      { st with similarities := some ((X.map fun xr =>
          [dotList (sklearnNormalize xr) (sklearnNormalize v)]).flatten) },
      ?_, ?_, rfl⟩
    · simp [PaperSelector.compute_similarities, cosine_similarity, hdim']
    · rw [flatten_map_singleton]
      simp

/-- Witness for C10: two documents scored against a two-row 2-D reference
give four scores, not two. -/
theorem twoD_reference_flattens_witness :
    (∀ r ∈ ([[1, 0], [0, 1]] : List (List ℝ)),
        r.length = (([[1, 0], [0, 1]] : List (List ℝ)).headD []).length) ∧
    (∀ r ∈ ([[1, 0], [0, 2]] : List (List ℝ)),
        r.length = (([[1, 0], [0, 2]] : List (List ℝ)).headD []).length) ∧
    (([[1, 0], [0, 1]] : List (List ℝ)).headD []).length =
        (([[1, 0], [0, 2]] : List (List ℝ)).headD []).length ∧
    ∃ scores st', PaperSelector.init.compute_similarities
          [[1, 0], [0, 1]] (.mat [[1, 0], [0, 2]]) = .ok (scores, st') ∧
        scores.length =
          ([[1, 0], [0, 1]] : List (List ℝ)).length *
            ([[1, 0], [0, 2]] : List (List ℝ)).length ∧
        st' = { PaperSelector.init with similarities := some scores } :=
  ⟨by simp, by simp, rfl,
    (twoD_reference_flattens PaperSelector.init [[1, 0], [0, 1]]
      (by simp)).1 [[1, 0], [0, 2]] (by simp) rfl⟩

/-! ### Percentile interpolation lemmas -/

/-- The sort underlying medians and percentiles is sorted. -/
theorem npSort_sorted (l : List ℝ) : (npSort l).Sorted (· ≤ ·) :=
  List.sorted_insertionSort _ l

/-- Sorting preserves length. -/
theorem npSort_length (l : List ℝ) : (npSort l).length = l.length :=
  (List.perm_insertionSort _ l).length_eq

/-- In a sorted list, `getD` at a smaller in-bounds index is at most `getD`
at a larger in-bounds index, whatever the defaults. -/
theorem sorted_getD_mono (s : List ℝ) (hs : s.Sorted (· ≤ ·)) (i j : ℕ)
    (hij : i ≤ j) (hj : j < s.length) (d d' : ℝ) :
    s.getD i d ≤ s.getD j d' := by
  have hi : i < s.length := lt_of_le_of_lt hij hj
  rw [List.getD_eq_getElem s d hi, List.getD_eq_getElem s d' hj]
  rcases eq_or_lt_of_le hij with rfl | hlt
  · exact le_refl _
  · simpa using hs.rel_get_of_lt (a := ⟨i, hi⟩) (b := ⟨j, hj⟩) hlt

/-- Linear interpolation over a sorted list is monotone in the virtual
index, as long as the index stays within `[0, length - 1]`. -/
theorem interpAt_mono (s : List ℝ) (hs : s.Sorted (· ≤ ·)) (p₁ p₂ : ℚ)
    (h0 : 0 ≤ p₁) (h12 : p₁ ≤ p₂) (hn : p₂ ≤ (s.length : ℚ) - 1) :
    interpAt s p₁ ≤ interpAt s p₂ := by
  have hf1 : (0 : ℤ) ≤ ⌊p₁⌋ := Int.floor_nonneg.mpr h0
  have hf2 : (0 : ℤ) ≤ ⌊p₂⌋ := le_trans hf1 (Int.floor_le_floor h12)
  have hfle : ⌊p₁⌋ ≤ ⌊p₂⌋ := Int.floor_le_floor h12
  set i₁ : ℕ := (⌊p₁⌋).toNat with hi₁
  set i₂ : ℕ := (⌊p₂⌋).toNat with hi₂
  have hc1 : ((i₁ : ℤ)) = ⌊p₁⌋ := Int.toNat_of_nonneg hf1
  have hc2 : ((i₂ : ℤ)) = ⌊p₂⌋ := Int.toNat_of_nonneg hf2
  have hq1 : ((i₁ : ℚ)) = (⌊p₁⌋ : ℚ) := by exact_mod_cast hc1
  have hq2 : ((i₂ : ℚ)) = (⌊p₂⌋ : ℚ) := by exact_mod_cast hc2
  have hi12 : i₁ ≤ i₂ := by omega
  have hfloor2 : (⌊p₂⌋ : ℚ) ≤ (s.length : ℚ) - 1 :=
    le_trans (Int.floor_le p₂) hn
  have hi₂n : i₂ < s.length := by
    have hle : ((i₂ : ℚ)) ≤ (s.length : ℚ) - 1 := hq2 ▸ hfloor2
    have h' : ((i₂ : ℚ)) + 1 ≤ (s.length : ℚ) := by linarith
    exact_mod_cast h'
  have hγ1lo : (0 : ℝ) ≤ ((p₁ - i₁ : ℚ) : ℝ) := by
    have hfl : ((i₁ : ℚ)) ≤ p₁ := hq1 ▸ Int.floor_le p₁
    have h' : (0 : ℚ) ≤ p₁ - i₁ := by linarith
    exact_mod_cast h'
  have hγ1hi : ((p₁ - i₁ : ℚ) : ℝ) ≤ 1 := by
    have hfl : p₁ < ((i₁ : ℚ)) + 1 := hq1 ▸ Int.lt_floor_add_one p₁
    have h' : p₁ - i₁ ≤ (1 : ℚ) := by linarith
    exact_mod_cast h'
  have hγ2lo : (0 : ℝ) ≤ ((p₂ - i₂ : ℚ) : ℝ) := by
    have hfl : ((i₂ : ℚ)) ≤ p₂ := hq2 ▸ Int.floor_le p₂
    have h' : (0 : ℚ) ≤ p₂ - i₂ := by linarith
    exact_mod_cast h'
  simp only [interpAt, ← hi₁, ← hi₂]
  rw [← hq1, ← hq2]
  rcases eq_or_lt_of_le hi12 with heq | hlt
  · -- same lower index: only the interpolation weight grows
    rw [← heq]
    have hab : s.getD i₁ 0 ≤ s.getD (i₁ + 1) (s.getD i₁ 0) := by
      rcases lt_or_le (i₁ + 1) s.length with hin | hout
      · exact sorted_getD_mono s hs i₁ (i₁ + 1) (by omega) hin 0 _
      · rw [List.getD_eq_default _ _ hout]
    have hγle : ((p₁ - i₁ : ℚ) : ℝ) ≤ ((p₂ - i₁ : ℚ) : ℝ) := by
      have h' : p₁ - (i₁ : ℚ) ≤ p₂ - i₁ := by linarith
      exact_mod_cast h'
    nlinarith [mul_nonneg (sub_nonneg.mpr hγle) (sub_nonneg.mpr hab)]
  · -- strictly larger lower index: pass through the intermediate entries
    have hi1n : i₁ + 1 ≤ i₂ := hlt
    have hub : i₁ + 1 < s.length := lt_of_le_of_lt hi1n hi₂n
    have h₁b : s.getD (i₁ + 1) (s.getD i₁ 0) = s.getD (i₁ + 1) (0 : ℝ) := by
      rw [List.getD_eq_getElem s _ hub, List.getD_eq_getElem s _ hub]
    have hab1 : s.getD i₁ 0 ≤ s.getD (i₁ + 1) (s.getD i₁ 0) := by
      rw [h₁b]; exact sorted_getD_mono s hs i₁ (i₁ + 1) (by omega) hub 0 0
    have hmid : s.getD (i₁ + 1) (0 : ℝ) ≤ s.getD i₂ (0 : ℝ) :=
      sorted_getD_mono s hs (i₁ + 1) i₂ hi1n hi₂n 0 0
    have hab2 : s.getD i₂ 0 ≤ s.getD (i₂ + 1) (s.getD i₂ 0) := by
      rcases lt_or_le (i₂ + 1) s.length with hin | hout
      · exact sorted_getD_mono s hs i₂ (i₂ + 1) (by omega) hin 0 _
      · rw [List.getD_eq_default _ _ hout]
    have step1 : s.getD i₁ 0 + ((p₁ - i₁ : ℚ) : ℝ) *
        (s.getD (i₁ + 1) (s.getD i₁ 0) - s.getD i₁ 0) ≤
        s.getD (i₁ + 1) (s.getD i₁ 0) := by
      nlinarith [hab1, hγ1lo, hγ1hi]
    have step2 : s.getD i₂ 0 ≤ s.getD i₂ 0 + ((p₂ - i₂ : ℚ) : ℝ) *
        (s.getD (i₂ + 1) (s.getD i₂ 0) - s.getD i₂ 0) := by
      nlinarith [hab2, hγ2lo]
    calc s.getD i₁ 0 + ((p₁ - i₁ : ℚ) : ℝ) *
          (s.getD (i₁ + 1) (s.getD i₁ 0) - s.getD i₁ 0)
        ≤ s.getD (i₁ + 1) (s.getD i₁ 0) := step1
      _ = s.getD (i₁ + 1) (0 : ℝ) := h₁b
      _ ≤ s.getD i₂ (0 : ℝ) := hmid
      _ ≤ s.getD i₂ 0 + ((p₂ - i₂ : ℚ) : ℝ) *
          (s.getD (i₂ + 1) (s.getD i₂ 0) - s.getD i₂ 0) := step2

/-- Percentiles of a non-empty list are monotone in the quantile within
`[0, 100]`. -/
theorem npPercentile_mono (l : List ℝ) (hne : l ≠ []) (q₁ q₂ : ℚ)
    (h0 : 0 ≤ q₁) (h12 : q₁ ≤ q₂) (h100 : q₂ ≤ 100) :
    npPercentile l q₁ ≤ npPercentile l q₂ := by
  have hlen : 1 ≤ l.length := List.length_pos.mpr hne
  have hlen' : (1 : ℚ) ≤ (l.length : ℚ) := by exact_mod_cast hlen
  have hnn : (0 : ℚ) ≤ (l.length : ℚ) - 1 := by linarith
  unfold npPercentile
  apply interpAt_mono _ (npSort_sorted l)
  · exact div_nonneg (mul_nonneg h0 hnn) (by norm_num)
  · have hm := mul_le_mul_of_nonneg_right h12 hnn
    linarith
  · rw [npSort_length, div_le_iff₀ (by norm_num : (0 : ℚ) < 100)]
    have hm := mul_le_mul_of_nonneg_right h100 hnn
    nlinarith

/-- Python `np.median` agrees with the linearly interpolated 50th
percentile on non-empty data. -/
theorem npMedian_eq_percentile50 (l : List ℝ) (hne : l ≠ []) :
    npMedian l = npPercentile l 50 := by
  have hlen : 1 ≤ l.length := List.length_pos.mpr hne
  have hslen : (npSort l).length = l.length := npSort_length l
  rcases Nat.even_or_odd l.length with he | ho
  · -- even length 2k + 2
    obtain ⟨k, hk⟩ := he
    obtain ⟨m, hm⟩ : ∃ m, k = m + 1 := ⟨k - 1, by omega⟩
    have hk' : l.length = 2 * m + 2 := by omega
    have hpos : (50 : ℚ) * ((l.length : ℚ) - 1) / 100 = (m : ℚ) + 1 / 2 := by
      rw [hk']; push_cast; ring
    have hfloor : ⌊(m : ℚ) + 1 / 2⌋ = (m : ℤ) := by
      rw [Int.floor_eq_iff]
      constructor <;> push_cast <;> norm_num
    have hb : m + 1 < (npSort l).length := by omega
    have ha : m < (npSort l).length := by omega
    rw [npMedian, npPercentile, hpos, interpAt]
    simp only [hfloor, Int.toNat_natCast]
    rw [List.getD_eq_getElem _ _ hb, List.getD_eq_getElem _ _ ha]
    have hif : ¬ (l.length % 2 = 1) := by omega
    rw [if_neg hif]
    have h1 : l.length / 2 - 1 = m := by omega
    have h2 : l.length / 2 = m + 1 := by omega
    rw [h1, h2, List.getD_eq_getElem _ _ hb, List.getD_eq_getElem _ _ ha]
    have hγ : (((m : ℚ) + 1 / 2 - ((m : ℤ) : ℚ) : ℚ) : ℝ) = 1 / 2 := by
      push_cast; ring
    rw [hγ]
    ring
  · -- odd length 2k + 1
    obtain ⟨k, hk⟩ := ho
    have hpos : (50 : ℚ) * ((l.length : ℚ) - 1) / 100 = (k : ℚ) := by
      rw [hk]; push_cast; ring
    have hfloor : ⌊(k : ℚ)⌋ = (k : ℤ) := Int.floor_natCast k
    have ha : k < (npSort l).length := by omega
    rw [npMedian, npPercentile, hpos, interpAt]
    simp only [hfloor, Int.toNat_natCast]
    have hif : l.length % 2 = 1 := by omega
    rw [if_pos hif]
    have h2 : l.length / 2 = k := by omega
    rw [h2, List.getD_eq_getElem _ _ ha]
    have hγ : (((k : ℚ) - ((k : ℤ) : ℚ) : ℚ) : ℝ) = 0 := by push_cast; ring
    rw [hγ]
    ring

/-- C8: on any non-empty score vector the percentile-policy thresholds are
monotone in the quantile: the `percentile_90` threshold is at least the
`percentile_75` threshold, which is at least the `median` threshold. -/
theorem percentile_policies_monotone (st : PaperSelector) (sims : List ℝ)
    (h : st.similarities = some sims) (hne : sims ≠ []) :
    st.compute_threshold "median" none =
      .ok (npMedian sims, { st with threshold := some (npMedian sims) }) ∧
    st.compute_threshold "percentile_75" none =
      .ok (npPercentile sims 75,
        { st with threshold := some (npPercentile sims 75) }) ∧
    st.compute_threshold "percentile_90" none =
      .ok (npPercentile sims 90,
        { st with threshold := some (npPercentile sims 90) }) ∧
    npMedian sims ≤ npPercentile sims 75 ∧
    npPercentile sims 75 ≤ npPercentile sims 90 := by
  refine ⟨by simp [PaperSelector.compute_threshold, h],
    by simp [PaperSelector.compute_threshold, h],
    by simp [PaperSelector.compute_threshold, h], ?_, ?_⟩
  · rw [npMedian_eq_percentile50 sims hne]
    exact npPercentile_mono sims hne 50 75 (by norm_num) (by norm_num)
      (by norm_num)
  · exact npPercentile_mono sims hne 75 90 (by norm_num) (by norm_num)
      (by norm_num)

/-- Witness for C8 on the skewed score vector `[0, 1, 1, 10]`. -/
theorem percentile_policies_monotone_witness :
    (PaperSelector.mk (some [0, 1, 1, 10]) none).similarities =
        some [0, 1, 1, 10] ∧
    ([0, 1, 1, 10] : List ℝ) ≠ [] ∧
    (npMedian [0, 1, 1, 10] ≤ npPercentile [0, 1, 1, 10] 75 ∧
      npPercentile ([0, 1, 1, 10] : List ℝ) 75 ≤
        npPercentile [0, 1, 1, 10] 90) :=
  ⟨rfl, by simp,
    ⟨(percentile_policies_monotone (PaperSelector.mk (some [0, 1, 1, 10]) none)
        [0, 1, 1, 10] rfl (by simp)).2.2.2.1,
     (percentile_policies_monotone (PaperSelector.mk (some [0, 1, 1, 10]) none)
        [0, 1, 1, 10] rfl (by simp)).2.2.2.2⟩⟩

/-- Witness for C9 on a selector carrying scores `[1, 2]` and a leftover
threshold `5`: the no-argument selection silently applies the old
threshold and the statistics keep reporting it. -/
theorem compute_similarities_frame_witness :
    (PaperSelector.mk (some [1, 2]) (some 5)).similarities = some [1, 2] ∧
    (PaperSelector.mk (some [1, 2]) (some 5)).threshold = some 5 ∧
    ((PaperSelector.mk (some [1, 2]) (some 5)).select_papers none =
        .ok (selMask [1, 2] 5, PaperSelector.mk (some [1, 2]) (some 5)) ∧
      ∃ s, (PaperSelector.mk (some [1, 2]) (some 5)).get_statistics =
          .ok s ∧ s.threshold = some 5) :=
  ⟨rfl, rfl, compute_similarities_frame.2
    (PaperSelector.mk (some [1, 2]) (some 5)) [1, 2] 5 rfl rfl⟩

/-- C2: with a non-empty score vector present, each policy stores and
returns exactly its spec formula — `mean + 2·population_std` for
`mean_2std`, `mean + 1·population_std` for `mean_1std`, the (linearly
interpolated 50th percentile) median for `median`, and the linearly
interpolated 75th/90th percentiles — and on the zero-variance vector
`[0.2, 0.2, 0.2]` the `mean_2std` threshold is the mean `0.2`. -/
theorem compute_threshold_formulas (st : PaperSelector) (sims : List ℝ)
    (h : st.similarities = some sims) (hne : sims ≠ []) :
    (st.compute_threshold "mean_2std" none =
      .ok (sims.sum / sims.length + 2 * Real.sqrt
          (((sims.map fun x =>
            (x - sims.sum / sims.length) ^ 2).sum) / sims.length),
        { st with threshold := some (sims.sum / sims.length + 2 * Real.sqrt
          (((sims.map fun x =>
            (x - sims.sum / sims.length) ^ 2).sum) / sims.length)) })) ∧
    (st.compute_threshold "mean_1std" none =
      .ok (sims.sum / sims.length + 1 * Real.sqrt
          (((sims.map fun x =>
            (x - sims.sum / sims.length) ^ 2).sum) / sims.length),
        { st with threshold := some (sims.sum / sims.length + 1 * Real.sqrt
          (((sims.map fun x =>
            (x - sims.sum / sims.length) ^ 2).sum) / sims.length)) })) ∧
    (st.compute_threshold "median" none =
      .ok (npPercentile sims 50,
        { st with threshold := some (npPercentile sims 50) })) ∧
    (st.compute_threshold "percentile_75" none =
      .ok (npPercentile sims 75,
        { st with threshold := some (npPercentile sims 75) })) ∧
    (st.compute_threshold "percentile_90" none =
      .ok (npPercentile sims 90,
        { st with threshold := some (npPercentile sims 90) })) ∧
    PaperSelector.compute_threshold
        (PaperSelector.mk (some [0.2, 0.2, 0.2]) none) "mean_2std" none =
      .ok (0.2, PaperSelector.mk (some [0.2, 0.2, 0.2]) (some 0.2)) := by
  have hmean : npMean [(0.2 : ℝ), 0.2, 0.2] = 0.2 := by
    norm_num [npMean]
  have hstd : npStd [(0.2 : ℝ), 0.2, 0.2] = 0 := by
    rw [npStd, hmean]
    norm_num [Real.sqrt_eq_zero']
  refine ⟨by simp [PaperSelector.compute_threshold, h, npMean, npStd],
    by simp [PaperSelector.compute_threshold, h, npMean, npStd],
    ?_,
    by simp [PaperSelector.compute_threshold, h],
    by simp [PaperSelector.compute_threshold, h],
    ?_⟩
  · rw [← npMedian_eq_percentile50 sims hne]
    simp [PaperSelector.compute_threshold, h]
  · simp [PaperSelector.compute_threshold, hmean, hstd]

/-- Witness for C2 at the zero-variance score vector `[0.2, 0.2, 0.2]`:
the median policy equals the interpolated 50th percentile there. -/
theorem compute_threshold_formulas_witness :
    (PaperSelector.mk (some [0.2, 0.2, 0.2]) none).similarities =
        some [0.2, 0.2, 0.2] ∧
    ([0.2, 0.2, 0.2] : List ℝ) ≠ [] ∧
    (PaperSelector.mk (some [0.2, 0.2, 0.2]) none).compute_threshold
        "median" none =
      .ok (npPercentile [0.2, 0.2, 0.2] 50,
        PaperSelector.mk (some [0.2, 0.2, 0.2])
          (some (npPercentile [0.2, 0.2, 0.2] 50))) :=
  ⟨rfl, by simp,
    (compute_threshold_formulas (PaperSelector.mk (some [0.2, 0.2, 0.2]) none)
      [0.2, 0.2, 0.2] rfl (by simp)).2.2.1⟩

/-- C4: with scores present, `get_statistics` is a pure read (it returns
only a statistics record, never a new state) delivering count, mean,
population standard deviation, median, min, max and the 25th/75th/90th/95th
linearly interpolated percentiles; with no threshold set the three
threshold-dependent fields are omitted (`none`), and with a threshold `t`
set they are present, with `selected_count` the number of scores at least
`t` — which equals the number of `true` entries of the selection mask — and
`selected_percentage` equal to `100 · selected_count / count`. -/
theorem get_statistics_spec (st : PaperSelector) (sims : List ℝ)
    (h : st.similarities = some sims) :
    (st.threshold = none →
      st.get_statistics = .ok
        { count := sims.length, mean := npMean sims, std := npStd sims,
          median := npMedian sims, min := npMin sims, max := npMax sims,
          q25 := npPercentile sims 25, q75 := npPercentile sims 75,
          q90 := npPercentile sims 90, q95 := npPercentile sims 95,
          threshold := none, selected_count := none,
          selected_percentage := none }) ∧
    (∀ t, st.threshold = some t →
      st.get_statistics = .ok
        { count := sims.length, mean := npMean sims, std := npStd sims,
          median := npMedian sims, min := npMin sims, max := npMax sims,
          q25 := npPercentile sims 25, q75 := npPercentile sims 75,
          q90 := npPercentile sims 90, q95 := npPercentile sims 95,
          threshold := some t,
          selected_count := some (sims.countP fun s => decide (t ≤ s)),
          selected_percentage := some
            (100 * (sims.countP fun s => decide (t ≤ s)) / sims.length) } ∧
      (sims.countP fun s => decide (t ≤ s)) = (selMask sims t).count true) := by
  constructor
  · intro hth
    simp [PaperSelector.get_statistics, h, hth]
  · intro t hth
    refine ⟨?_, (selMask_count sims t).symm⟩
    simp [PaperSelector.get_statistics, h, hth, selMask_count]

/-- Witness for C4 on a selector with scores `[1, 3]` and no threshold:
the threshold-dependent fields are omitted. -/
theorem get_statistics_spec_witness :
    (PaperSelector.mk (some [1, 3]) none).similarities = some [1, 3] ∧
    (PaperSelector.mk (some [1, 3]) none).threshold = none ∧
    (PaperSelector.mk (some [1, 3]) none).get_statistics = .ok
      { count := ([1, 3] : List ℝ).length, mean := npMean [1, 3],
        std := npStd [1, 3], median := npMedian [1, 3],
        min := npMin [1, 3], max := npMax [1, 3],
        q25 := npPercentile [1, 3] 25, q75 := npPercentile [1, 3] 75,
        q90 := npPercentile [1, 3] 90, q95 := npPercentile [1, 3] 95,
        threshold := none, selected_count := none,
        selected_percentage := none } :=
  ⟨rfl, rfl, (get_statistics_spec (PaperSelector.mk (some [1, 3]) none)
    [1, 3] rfl).1 rfl⟩

/-- A dot product with an all-zero left factor vanishes. -/
theorem dotList_zero_left (u : List ℝ) :
    ∀ w : List ℝ, (∀ x ∈ u, x = 0) → dotList u w = 0 := by
  induction u with
  | nil => intro w _; simp [dotList]
  | cons x xs ih =>
    intro w hu
    cases w with
    | nil => simp [dotList]
    | cons y ys =>
      have hx : x = 0 := hu x (by simp)
      have hxs : ∀ z ∈ xs, z = 0 := fun z hz => hu z (by simp [hz])
      have hih : (List.zipWith (· * ·) xs ys).sum = 0 := by
        simpa [dotList] using ih ys hxs
      simp [dotList, hx, hih]

/-- Normalizing an all-zero row yields an all-zero row (its entries are
`0 / n'`), whatever value sklearn substitutes for the zero norm. -/
theorem sklearnNormalize_zeros (v : List ℝ) (hv : ∀ x ∈ v, x = 0) :
    ∀ x ∈ sklearnNormalize v, x = 0 := by
  intro x hx
  simp only [sklearnNormalize, List.mem_map] at hx
  obtain ⟨y, hy, rfl⟩ := hx
  rw [hv y hy]
  simp

/-- C1 counterexample: scoring the single all-zero document `[0, 0]`
against the reference `[1, 0]` does NOT fail — sklearn's
`cosine_similarity` normalizes the zero row to itself and silently
returns the score `0` for it, storing `[0]` as the score vector. -/
theorem zero_row_not_rejected :
    PaperSelector.init.compute_similarities [[0, 0]] (.vec [1, 0]) =
      .ok ([0], PaperSelector.mk (some [0]) none) := by
  have hz : sklearnNormalize [(0 : ℝ), 0] = [0, 0] := by
    simp [sklearnNormalize, sumSq]
  have hd : dotList (sklearnNormalize [(0 : ℝ), 0])
      (sklearnNormalize [(1 : ℝ), 0]) = 0 := by
    rw [hz]
    simp [dotList, sklearnNormalize, sumSq]
  simp [PaperSelector.compute_similarities, cosine_similarity,
    PaperSelector.init, hd]

/-- C1 amended: `compute_similarities` never raises a degenerate-vector
error — no such error exists in the code.  For any document matrix with an
all-zero row (dimensions matching the 1-D reference), the call succeeds
and the score reported for that row is silently `0` (not `NaN`): sklearn's
`normalize` substitutes 1 for the zero norm, leaving the zero row
unchanged, and its dot product with the normalized reference is `0`. -/
theorem zero_row_scores_zero (st : PaperSelector) (X : List (List ℝ))
    (v : List ℝ) (i : ℕ) (hd : ∀ r ∈ X, r.length = v.length)
    (hne : X ≠ []) (hi : i < X.length)
    (hrow : ∀ x ∈ X.getD i [], x = 0) :
    ∃ scores st', st.compute_similarities X (.vec v) = .ok (scores, st') ∧
      scores.length = X.length ∧ scores[i]? = some 0 := by
  obtain ⟨r, rs, rfl⟩ := List.exists_cons_of_ne_nil hne
  have hr : r.length = v.length := hd r (by simp)
  have hdim : (((r :: rs).head?.getD []).length = v.length) := by
    simpa using hr
  refine ⟨((r :: rs).map fun xr =>
      [dotList (sklearnNormalize xr) (sklearnNormalize v)]).flatten,
    { st with similarities := some (((r :: rs).map fun xr =>
        [dotList (sklearnNormalize xr) (sklearnNormalize v)]).flatten) },
    ?_, ?_, ?_⟩
  · simp [PaperSelector.compute_similarities, cosine_similarity, hr]
  · rw [flatten_map_singleton, List.length_map]
  · rw [flatten_map_singleton, List.getElem?_map]
    have hget : (r :: rs)[i]? = some ((r :: rs).getD i []) := by
      rw [List.getD_eq_getElem _ _ hi, List.getElem?_eq_getElem hi]
    have hzero : dotList (sklearnNormalize ((r :: rs).getD i []))
        (sklearnNormalize v) = 0 :=
      dotList_zero_left _ _ (sklearnNormalize_zeros _ hrow)
    rw [hget, Option.map_some']
    exact congrArg some hzero

/-- Witness for C1's amended theorem at the counterexample input. -/
theorem zero_row_scores_zero_witness :
    (∀ r ∈ [[(0 : ℝ), 0]], r.length = ([1, 0] : List ℝ).length) ∧
    ([[(0 : ℝ), 0]] ≠ ([] : List (List ℝ))) ∧ 0 < [[(0 : ℝ), 0]].length ∧
    (∀ x ∈ [[(0 : ℝ), 0]].getD 0 [], x = 0) ∧
    ∃ scores st', PaperSelector.init.compute_similarities [[0, 0]]
        (.vec [1, 0]) = .ok (scores, st') ∧
      scores.length = [[(0 : ℝ), 0]].length ∧ scores[0]? = some 0 :=
  ⟨by simp, by simp, by simp, by simp [List.getD],
    zero_row_scores_zero PaperSelector.init [[0, 0]] [1, 0] 0
      (by simp) (by simp) (by simp) (by simp [List.getD])⟩
